import Mathlib

/-!
Shallow embedding of the lighting fade controller
(`src/main/app/fade_controller.c`) of the LCC-Lighting-Touchscreen
repository, together with the bus-sink interface it consumes
(`lcc_node_send_lighting_event` in `src/main/app/lcc_node.cpp`).

Modelling conventions:
* C `float` interpolation values are modelled by exact fractions
  (`Frac`, an unnormalized `Int` numerator / positive `Int` denominator
  pair).  Every fraction built by the controller has a positive
  denominator: `Frac.ofInt` has denominator 1, the progress fraction has
  the (nonzero) fade duration as denominator, and sums/products of
  positive denominators stay positive.  All controller arithmetic on
  these values is exact in the real program as well for the scenarios
  proved below.
* Machine integers are `Nat`/`Int`; the two places where C performs a
  narrowing conversion (`(uint32_t)(elapsed_us / 1000)` and the
  `uint8_t` percent cast) carry an explicit `% 4294967296` (2^32)
  resp. `% 256`.
* `esp_err_t` is modelled by the error values this component
  distinguishes; the transmit loop treats `ESP_OK` as success,
  `ESP_ERR_INVALID_STATE` as the transient "sink not ready" condition
  (that is what `lcc_node_send_lighting_event` returns when the LCC
  stack is not running), and anything else as a per-channel failure.
* The global `s_fade` record is passed explicitly; `esp_timer_get_time()`
  results are explicit `Int` arguments.  `fade_controller_tick` calls
  the timer twice (once at entry, once after the transmit burst), so the
  embedded tick takes two timestamps `now` and `now2`.
* The bus sink is an explicit function argument of the tick; a tick
  additionally returns the list of `(parameter, value)` events it
  actually put on the bus, in order.
-/

/-- `esp_err_t` values relevant to the fade controller. -/
inductive EspErr where
  | espOk
  | espErrInvalidState
  | espErrInvalidArg
  | espErrNotFound
  | espFail
  deriving DecidableEq

/-- `light_param_t`: enumeration order RED=0, GREEN=1, BLUE=2, WHITE=3,
BRIGHTNESS=4 (the LCC parameter indices, which the enum matches). -/
inductive LightParam where
  | red
  | green
  | blue
  | white
  | brightness
  deriving DecidableEq

/-- `lighting_state_t`: five 8-bit channel values. -/
structure LightingState where
  red : Nat
  green : Nat
  blue : Nat
  white : Nat
  brightness : Nat
  deriving DecidableEq

/-- `fade_state_t`. -/
inductive FadeState where
  | idle
  | fading
  | complete
  deriving DecidableEq

/-- Exact fraction modelling a C `float` value of the controller.
Denominators are positive for every fraction the controller builds. -/
structure Frac where
  num : Int
  den : Int
  deriving DecidableEq

def Frac.ofInt (n : Int) : Frac := ⟨n, 1⟩

def Frac.add (a b : Frac) : Frac := ⟨a.num * b.den + b.num * a.den, a.den * b.den⟩

def Frac.sub (a b : Frac) : Frac := ⟨a.num * b.den - b.num * a.den, a.den * b.den⟩

def Frac.mul (a b : Frac) : Frac := ⟨a.num * b.num, a.den * b.den⟩

/-- `a ≤ b` by cross multiplication (valid for positive denominators). -/
def Frac.ble (a b : Frac) : Bool := decide (a.num * b.den ≤ b.num * a.den)

/-- `a < b` by cross multiplication (valid for positive denominators). -/
def Frac.blt (a b : Frac) : Bool := decide (a.num * b.den < b.num * a.den)

/-- Models `(uint8_t)roundf(x)`: round to nearest, ties away from zero.
For the nonnegative values produced by the interpolation (all channel
values lie in [0,255]) this is `⌊x + 1/2⌋`; for `x = n/d` with `d > 0`
that floor is `(2n + d) fdiv (2d)`.  The `% 256` is the `uint8_t`
conversion. -/
def u8round (q : Frac) : Nat := ((q.num * 2 + q.den).fdiv (q.den * 2)).toNat % 256

/-- Per-channel float accumulators (`current_float[LIGHT_PARAM_COUNT]`),
indexed by `light_param_t`. -/
structure FloatChannels where
  red : Frac
  green : Frac
  blue : Frac
  white : Frac
  brightness : Frac
  deriving DecidableEq

/-- `get_param`. -/
def get_param (s : LightingState) : LightParam → Nat
  | .red => s.red
  | .green => s.green
  | .blue => s.blue
  | .white => s.white
  | .brightness => s.brightness

/-- `set_param`. -/
def set_param (s : LightingState) (p : LightParam) (v : Nat) : LightingState :=
  match p with
  | .red => { s with red := v }
  | .green => { s with green := v }
  | .blue => { s with blue := v }
  | .white => { s with white := v }
  | .brightness => { s with brightness := v }

def getF (f : FloatChannels) : LightParam → Frac
  | .red => f.red
  | .green => f.green
  | .blue => f.blue
  | .white => f.white
  | .brightness => f.brightness

def setF (f : FloatChannels) (p : LightParam) (v : Frac) : FloatChannels :=
  match p with
  | .red => { f with red := v }
  | .green => { f with green := v }
  | .blue => { f with blue := v }
  | .white => { f with white := v }
  | .brightness => { f with brightness := v }

/-- The `for (i = 0; i < LIGHT_PARAM_COUNT; i++)` iteration order:
`light_param_t` enumeration order. -/
def paramList : List LightParam := [.red, .green, .blue, .white, .brightness]

/-- `TX_ORDER`: brightness first, then R, G, B, W. -/
def TX_ORDER : List LightParam :=
  [.brightness, .red, .green, .blue, .white]

/-- `TX_ORDER[idx]` as a total function (indices 0..4 are the only ones
reached; the loop guard `idx < LIGHT_PARAM_COUNT` ensures this). -/
def txOrderAt : Nat → LightParam
  | 0 => .brightness
  | 1 => .red
  | 2 => .green
  | 3 => .blue
  | _ => .white

/-- `fade_params_t`. -/
structure FadeParams where
  target : LightingState
  duration_ms : Nat
  deriving DecidableEq

/-- `fade_state_internal_t` (the global `s_fade`). -/
structure FadeSession where
  initialized : Bool
  current : LightingState
  state : FadeState
  start : LightingState
  target : LightingState
  duration_ms : Nat
  fade_start_us : Int
  last_tx_us : Int
  current_float : FloatChannels
  next_param_index : Nat
  tx_pending : Bool
  deriving DecidableEq

/-- `fade_progress_t`. -/
structure FadeProgress where
  state : FadeState
  current : LightingState
  elapsed_ms : Nat
  total_ms : Nat
  progress_percent : Nat
  deriving DecidableEq

def zeroLighting : LightingState := ⟨0, 0, 0, 0, 0⟩

def zeroFloats : FloatChannels :=
  ⟨.ofInt 0, .ofInt 0, .ofInt 0, .ofInt 0, .ofInt 0⟩

/-- The session produced by a first `fade_controller_init`: `memset 0`
followed by `state = FADE_STATE_IDLE; initialized = true`. -/
def initSession : FadeSession where
  initialized := true
  current := zeroLighting
  state := .idle
  start := zeroLighting
  target := zeroLighting
  duration_ms := 0
  fade_start_us := 0
  last_tx_us := 0
  current_float := zeroFloats
  next_param_index := 0
  tx_pending := false

/-- `fade_controller_init`. -/
def fade_controller_init (s : FadeSession) : FadeSession × EspErr :=
  if s.initialized then (s, .espOk) else (initSession, .espOk)

/-- The `for` loop in `fade_controller_start` / `fade_controller_set_current`
that reloads `current_float[i]` from `current`. -/
def floatsOf (c : LightingState) : FloatChannels :=
  ⟨.ofInt c.red, .ofInt c.green, .ofInt c.blue, .ofInt c.white, .ofInt c.brightness⟩

/-- `fade_controller_start`.  `now` is the `esp_timer_get_time()` value at
the call; `none` models a NULL `params` pointer. -/
def fade_controller_start (now : Int) (params : Option FadeParams)
    (s : FadeSession) : FadeSession × EspErr :=
  if s.initialized = false then (s, .espErrInvalidState)
  else
    match params with
    | none => (s, .espErrInvalidArg)
    | some ps =>
      let s1 : FadeSession :=
        { s with start := s.current, target := ps.target,
                 duration_ms := ps.duration_ms,
                 current_float := floatsOf s.current }
      if ps.duration_ms = 0 then
        ({ s1 with current := ps.target, state := .fading, tx_pending := true,
                   next_param_index := 0, fade_start_us := now }, .espOk)
      else
        ({ s1 with state := .fading, fade_start_us := now, tx_pending := true,
                   next_param_index := 0 }, .espOk)

/-- `fade_controller_apply_immediate`. -/
def fade_controller_apply_immediate (now : Int) (state? : Option LightingState)
    (s : FadeSession) : FadeSession × EspErr :=
  match state? with
  | none => (s, .espErrInvalidArg)
  | some st => fade_controller_start now (some { target := st, duration_ms := 0 }) s

/-- One step of the interpolation loop body for channel `p`.  The
accumulator carries (`current_float`, `current`, `values_changed`). -/
def interpStep (start target : LightingState) (progress : Frac)
    (acc : FloatChannels × LightingState × Bool) (p : LightParam) :
    FloatChannels × LightingState × Bool :=
  let sv := Frac.ofInt (get_param start p)
  let tv := Frac.ofInt (get_param target p)
  let newVal := Frac.add sv (Frac.mul (Frac.sub tv sv) progress)
  let oldInt := u8round (getF acc.1 p)
  let newInt := u8round newVal
  (setF acc.1 p newVal, set_param acc.2.1 p newInt,
   acc.2.2 || decide (oldInt ≠ newInt))

/-- The interpolation loop of `fade_controller_tick` (lines 230-248). -/
def interpolate (start target : LightingState) (progress : Frac)
    (floats : FloatChannels) (cur : LightingState) :
    FloatChannels × LightingState × Bool :=
  paramList.foldl (interpStep start target progress) (floats, cur, false)

/-- The transmit `while` loop of `fade_controller_tick` (lines 259-275),
with an explicit fuel counter.  The loop runs at most `5 - idx` times
(the index strictly increases until it reaches `LIGHT_PARAM_COUNT` or the
loop breaks), so fuel 5 reproduces it exactly from any start index.
Returns the final `next_param_index` and the list of events sent. -/
def txBurstGo (sink : LightParam → Nat → EspErr) (cur : LightingState) :
    Nat → Nat → Nat × List (LightParam × Nat)
  | 0, idx => (idx, [])
  | fuel + 1, idx =>
    if idx < 5 then
      let p := txOrderAt idx
      let v := get_param cur p
      match sink p v with
      | .espOk =>
        let r := txBurstGo sink cur fuel (idx + 1)
        (r.1, (p, v) :: r.2)
      | .espErrInvalidState => (idx, [])
      | _ => txBurstGo sink cur fuel (idx + 1)
    else (idx, [])

/-- The transmit `while` loop starting at cursor `idx`. -/
def txBurst (sink : LightParam → Nat → EspErr) (cur : LightingState)
    (idx : Nat) : Nat × List (LightParam × Nat) :=
  txBurstGo sink cur 5 idx

/-- The transmit block of `fade_controller_tick` (lines 250-287), applied
to the session `s1` whose `current`/`current_float` have already been
updated by interpolation.  `doTx` is `values_changed || tx_pending ||
need_finish_tx`.  `now2` models the second `esp_timer_get_time()` call
(line 278). -/
def txPhase (now now2 : Int) (sink : LightParam → Nat → EspErr)
    (s1 : FadeSession) (doTx : Bool) : FadeSession × List (LightParam × Nat) :=
  if doTx then
    if 10000 ≤ now - s1.last_tx_us then
      let b := txBurst sink s1.current s1.next_param_index
      let anySent : Bool := !b.2.isEmpty
      let s2 : FadeSession :=
        { s1 with next_param_index := b.1,
                  last_tx_us := if anySent then now2 else s1.last_tx_us }
      if 5 ≤ s2.next_param_index then
        ({ s2 with next_param_index := 0, tx_pending := false }, b.2)
      else (s2, b.2)
    else (s1, [])
  else (s1, [])

/-- The `all_at_target` check of `fade_controller_tick` (lines 292-299). -/
def allAtTarget (cur target : LightingState) : Bool :=
  paramList.all fun p => get_param cur p == get_param target p

/-- The fade-completion block of `fade_controller_tick` (lines 289-309). -/
def completePhase (progress : Frac) (s3 : FadeSession) : FadeSession :=
  if Frac.ble (Frac.ofInt 1) progress && !s3.tx_pending
      && (s3.next_param_index == 0) then
    if allAtTarget s3.current s3.target then { s3 with state := .complete }
    else { s3 with current := s3.target, tx_pending := true }
  else s3

/-- The `FADE_STATE_FADING` body of `fade_controller_tick`. -/
def tickFading (now now2 : Int) (sink : LightParam → Nat → EspErr)
    (s : FadeSession) : FadeSession × List (LightParam × Nat) :=
  let elapsed_us : Int := now - s.fade_start_us
  let elapsed_ms : Nat := ((elapsed_us.tdiv 1000) % 4294967296).toNat
  let progress : Frac :=
    if s.duration_ms = 0 then Frac.ofInt 1
    else
      let p : Frac := ⟨elapsed_ms, s.duration_ms⟩
      if Frac.blt (Frac.ofInt 1) p then Frac.ofInt 1 else p
  let r := interpolate s.start s.target progress s.current_float s.current
  let s1 : FadeSession := { s with current_float := r.1, current := r.2.1 }
  let needFinish : Bool :=
    Frac.ble (Frac.ofInt 1) progress && !(s.next_param_index == 0)
  let doTx : Bool := r.2.2 || s.tx_pending || needFinish
  let t := txPhase now now2 sink s1 doTx
  (completePhase progress t.1, t.2)

/-- `fade_controller_tick`.  Returns the new session, the list of events
actually sent on the bus (in order), and the returned `esp_err_t`. -/
def fade_controller_tick (now now2 : Int) (sink : LightParam → Nat → EspErr)
    (s : FadeSession) : FadeSession × List (LightParam × Nat) × EspErr :=
  if s.initialized = false then (s, [], .espErrNotFound)
  else if s.state = .idle then (s, [], .espOk)
  else if s.state = .complete then ({ s with state := .idle }, [], .espOk)
  else
    let f := tickFading now now2 sink s
    (f.1, f.2, .espOk)

/-- `fade_controller_get_progress`.  Returns the filled `fade_progress_t`
and the function's return value (`s_fade.state`). -/
def fade_controller_get_progress (now : Int) (s : FadeSession) :
    FadeProgress × FadeState :=
  if s.initialized = false then
    (⟨.idle, zeroLighting, 0, 0, 0⟩, .idle)
  else
    let total := s.duration_ms
    match s.state with
    | .fading =>
      let elapsedRaw : Nat := (((now - s.fade_start_us).tdiv 1000) % 4294967296).toNat
      let elapsed : Nat := min elapsedRaw total
      let percent : Nat :=
        if 0 < total then ((elapsed * 100) % 4294967296) / total % 256 else 100
      (⟨.fading, s.current, elapsed, total, percent⟩, .fading)
    | .complete => (⟨.complete, s.current, total, total, 100⟩, .complete)
    | .idle => (⟨.idle, s.current, 0, total, 0⟩, .idle)

/-- `fade_controller_abort`. -/
def fade_controller_abort (s : FadeSession) : FadeSession :=
  if s.initialized = false then s
  else { s with state := .idle, tx_pending := false }

/-- One tick input: the two timer readings and the bus sink behaviour
during that tick. -/
structure TickIn where
  now : Int
  now2 : Int
  sink : LightParam → Nat → EspErr

/-- Run a sequence of ticks, collecting every event sent on the bus. -/
def runTicks : FadeSession → List TickIn → FadeSession × List (LightParam × Nat)
  | s, [] => (s, [])
  | s, t :: ts =>
    let r := fade_controller_tick t.now t.now2 t.sink s
    let rest := runTicks r.1 ts
    (rest.1, r.2.1 ++ rest.2)

/-- The value last transmitted for channel `p` in an event list. -/
def lastSentOn (sends : List (LightParam × Nat)) (p : LightParam) : Option Nat :=
  sends.foldl (fun acc e => if e.1 = p then some e.2 else acc) none

/-- Monotone timestamps: every tick's timer readings are `≥ b`, the second
reading of a tick is `≥` its first, and readings never decrease from one
tick to the next. -/
def TickChain : Int → List TickIn → Prop
  | _, [] => True
  | b, t :: ts => b ≤ t.now ∧ t.now ≤ t.now2 ∧ TickChain t.now2 ts

/-- A sink that always accepts (LCC stack running, send succeeds). -/
def okSink : LightParam → Nat → EspErr := fun _ _ => .espOk

/-- Target used by several concrete scenarios: brightness 255, RGBW 0. -/
def brightTarget : LightingState := ⟨0, 0, 0, 0, 255⟩

/-- Modelled from the spec (claim C9): `percent = complete ? 100 :
(totalMs > 0 ? elapsedMs*100/totalMs : 100)`.  Definition written from
the spec's words, to be compared with `fade_controller_get_progress`. -/
def percentClaim (st : FadeState) (elapsed total : Nat) : Nat :=
  if st = .complete then 100 else if 0 < total then elapsed * 100 / total else 100

/-- A sink whose LCC stack is not ready exactly for the green channel
(the 3rd channel of the transmission order). -/
def haltSink : LightParam → Nat → EspErr := fun p _ =>
  match p with
  | .green => .espErrInvalidState
  | _ => .espOk

/-- A mid-round session used by the transient-halt/resume scenario:
fading, all channels steady, a full transmission round pending. -/
def resumeStart : FadeSession :=
  { initSession with
    state := .fading
    current := ⟨10, 20, 30, 40, 50⟩
    start := ⟨10, 20, 30, 40, 50⟩
    target := ⟨10, 20, 30, 40, 50⟩
    duration_ms := 1000
    fade_start_us := 1000000
    tx_pending := true
    current_float := floatsOf ⟨10, 20, 30, 40, 50⟩ }

/-- First tick of the resume scenario: the sink halts the round at green. -/
def resumeTick1 := fade_controller_tick 1000000 1000000 haltSink resumeStart

/-- Second tick of the resume scenario, 11 ms later, sink ready again. -/
def resumeTick2 := fade_controller_tick 1011000 1011000 okSink resumeTick1.1

/-- Session right after `start(target = brightness 255, duration = 5 ms)`
from the freshly initialized all-zero state, at time 1000000 µs. -/
def buggyStart : FadeSession :=
  (fade_controller_start 1000000 (some ⟨brightTarget, 5⟩) initSession).1

/-- Tick at fade start: transmits a full round of the (still all-zero)
current values. -/
def buggyTick1 := fade_controller_tick 1000000 1000000 okSink buggyStart

/-- Tick 6 ms later: progress has reached 1, but the rate limiter still
blocks transmission (6 ms < 10 ms since the last round). -/
def buggyTick2 := fade_controller_tick 1006000 1006000 okSink buggyTick1.1

/-- Session right after `start(target = brightness 255, duration = 1000 ms)`
from the freshly initialized all-zero state, at time 0. -/
def fadeScenario : FadeSession :=
  (fade_controller_start 0 (some ⟨brightTarget, 1000⟩) initSession).1

/-- Tick of the 1000 ms scenario at elapsed 500 ms. -/
def fadeTickHalf := fade_controller_tick 500000 500000 okSink fadeScenario

/-- Tick of the 1000 ms scenario at elapsed 1000 ms. -/
def fadeTickEnd := fade_controller_tick 1000000 1000000 okSink fadeTickHalf.1

/-- Mid-fade session used as concrete re-target / abort input. -/
def midFade : FadeSession :=
  { initSession with
    state := .fading
    current := ⟨10, 20, 30, 40, 50⟩
    start := zeroLighting
    target := brightTarget
    duration_ms := 1000
    fade_start_us := 0
    next_param_index := 2
    tx_pending := true
    current_float := floatsOf ⟨10, 20, 30, 40, 50⟩ }

/-- An uninitialized session with scribbled fields, for the first-init case. -/
def uninitSession : FadeSession :=
  { initSession with
    initialized := false
    duration_ms := 77
    next_param_index := 3
    state := .complete }

/-- A fading session awaiting its first transmission round, used by the
rate-limit witness. -/
def rateS0 : FadeSession :=
  { initSession with
    state := .fading
    target := brightTarget
    duration_ms := 1000
    tx_pending := true }

def rateT1 : TickIn := ⟨20000, 20000, okSink⟩

def rateT2 : TickIn := ⟨30100, 30100, okSink⟩

/-- A fading session used by the `get_progress` witness. -/
def progressWit : FadeSession :=
  { initSession with
    state := .fading
    duration_ms := 1000
    fade_start_us := 0 }

/-! ### Transmission-order lemmas -/

theorem txOrder_drop (idx : Nat) (h : idx < 5) :
    TX_ORDER.drop idx = txOrderAt idx :: TX_ORDER.drop (idx + 1) := by
  interval_cases idx <;> rfl

theorem txBurstGo_sublist (sink : LightParam → Nat → EspErr)
    (cur : LightingState) :
    ∀ (fuel idx : Nat),
      List.Sublist (txBurstGo sink cur fuel idx).2
        ((TX_ORDER.drop idx).map fun p => (p, get_param cur p)) := by
  intro fuel
  induction fuel with
  | zero => intro idx; exact List.nil_sublist _
  | succ fuel ih =>
    intro idx
    by_cases h5 : idx < 5
    · rw [txOrder_drop idx h5]
      simp only [txBurstGo, if_pos h5, List.map_cons]
      cases hs : sink (txOrderAt idx) (get_param cur (txOrderAt idx)) with
      | espOk => exact List.Sublist.cons₂ _ (ih (idx + 1))
      | espErrInvalidState => exact List.nil_sublist _
      | espErrInvalidArg => exact List.Sublist.cons _ (ih (idx + 1))
      | espErrNotFound => exact List.Sublist.cons _ (ih (idx + 1))
      | espFail => exact List.Sublist.cons _ (ih (idx + 1))
    · simp only [txBurstGo, if_neg h5]
      exact List.nil_sublist _

theorem txBurstGo_fuel_eq (sink : LightParam → Nat → EspErr)
    (cur : LightingState) :
    ∀ (f g idx : Nat), 5 ≤ idx + f → 5 ≤ idx + g →
      txBurstGo sink cur f idx = txBurstGo sink cur g idx := by
  intro f
  induction f with
  | zero =>
    intro g idx hf hg
    cases g with
    | zero => rfl
    | succ g =>
      show (idx, []) = txBurstGo sink cur (g + 1) idx
      simp only [txBurstGo, if_neg (by omega : ¬ idx < 5)]
  | succ f ih =>
    intro g idx hf hg
    cases g with
    | zero =>
      show txBurstGo sink cur (f + 1) idx = (idx, [])
      simp only [txBurstGo, if_neg (by omega : ¬ idx < 5)]
    | succ g =>
      by_cases h5 : idx < 5
      · simp only [txBurstGo, if_pos h5]
        cases hs : sink (txOrderAt idx) (get_param cur (txOrderAt idx)) <;>
          simp only [ih g (idx + 1) (by omega) (by omega)]
      · simp only [txBurstGo, if_neg h5]

theorem txBurst_halt (sink : LightParam → Nat → EspErr) (cur : LightingState)
    (idx : Nat) (h5 : idx < 5)
    (hs : sink (txOrderAt idx) (get_param cur (txOrderAt idx))
            = .espErrInvalidState) :
    txBurst sink cur idx = (idx, []) := by
  show txBurstGo sink cur (4 + 1) idx = (idx, [])
  simp only [txBurstGo, if_pos h5, hs]

theorem txBurst_skip (sink : LightParam → Nat → EspErr) (cur : LightingState)
    (idx : Nat) (h5 : idx < 5) (e : EspErr)
    (hs : sink (txOrderAt idx) (get_param cur (txOrderAt idx)) = e)
    (he1 : e ≠ .espOk) (he2 : e ≠ .espErrInvalidState) :
    txBurst sink cur idx = txBurst sink cur (idx + 1) := by
  show txBurstGo sink cur (4 + 1) idx = txBurstGo sink cur 5 (idx + 1)
  simp only [txBurstGo, if_pos h5, hs]
  cases e with
  | espOk => exact absurd rfl he1
  | espErrInvalidState => exact absurd rfl he2
  | espErrInvalidArg => exact txBurstGo_fuel_eq sink cur 4 5 (idx + 1) (by omega) (by omega)
  | espErrNotFound => exact txBurstGo_fuel_eq sink cur 4 5 (idx + 1) (by omega) (by omega)
  | espFail => exact txBurstGo_fuel_eq sink cur 4 5 (idx + 1) (by omega) (by omega)

/-- C2: within a single transmission round the events put on the bus are,
in order, a sublist of
`[(brightness, cur.brightness), (red, cur.red), (green, cur.green),
(blue, cur.blue), (white, cur.white)]`: channels go out in the fixed
order brightness, red, green, blue, white, with the current value of
each, and a skipped channel leaves the relative order of the remaining
ones unchanged.  The same holds for the tail of the order when the round
is entered at a saved cursor `idx`. -/
theorem tx_round_fixed_order (sink : LightParam → Nat → EspErr)
    (cur : LightingState) :
    List.Sublist (txBurst sink cur 0).2
      (TX_ORDER.map fun p => (p, get_param cur p)) ∧
    ∀ idx : Nat,
      List.Sublist (txBurst sink cur idx).2
        ((TX_ORDER.drop idx).map fun p => (p, get_param cur p)) := by
  refine ⟨?_, fun idx => txBurstGo_sublist sink cur 5 idx⟩
  simpa using txBurstGo_sublist sink cur 5 0

/-- C4: during a round, a transient sink failure (`ESP_ERR_INVALID_STATE`,
the "LCC not ready" condition) halts the round at the current channel
index with nothing sent, so that the cursor is preserved for the next
tick; any other sink failure skips exactly that channel and continues
the round at the next index; a burst entered at cursor `idx` only ever
sends channels from position `idx` onwards of the fixed order.
Concretely, with a sink that is not ready exactly on the 3rd channel of
the round: the first tick sends brightness and red only and leaves the
cursor at 2; the next tick sends green, blue, white — resuming at the
halted channel without re-sending the first two. -/
theorem transient_halts_other_failures_skip (sink : LightParam → Nat → EspErr)
    (cur : LightingState) (idx : Nat) (h5 : idx < 5) :
    (sink (txOrderAt idx) (get_param cur (txOrderAt idx)) = .espErrInvalidState →
      txBurst sink cur idx = (idx, [])) ∧
    (∀ e : EspErr,
      sink (txOrderAt idx) (get_param cur (txOrderAt idx)) = e →
      e ≠ .espOk → e ≠ .espErrInvalidState →
      txBurst sink cur idx = txBurst sink cur (idx + 1)) ∧
    List.Sublist ((txBurst sink cur idx).2.map Prod.fst) (TX_ORDER.drop idx) ∧
    (resumeTick1.2.1 = [(.brightness, 50), (.red, 10)] ∧
     resumeTick1.1.next_param_index = 2 ∧
     resumeTick2.2.1 = [(.green, 20), (.blue, 30), (.white, 40)] ∧
     resumeTick2.1.next_param_index = 0) := by
  refine ⟨txBurst_halt sink cur idx h5,
          fun e hs he1 he2 => txBurst_skip sink cur idx h5 e hs he1 he2,
          ?_, by decide, by decide, by decide, by decide⟩
  have h := List.Sublist.map Prod.fst (txBurstGo_sublist sink cur 5 idx)
  simpa [List.map_map, Function.comp] using h

/-! ### Start / immediate-apply / abort / progress / init -/

theorem getF_floatsOf (c : LightingState) (p : LightParam) :
    getF (floatsOf c) p = Frac.ofInt (get_param c p) := by
  cases p <;> rfl

/-- C5: a `start` call on an initialized session that is mid-fade snapshots
the session's `current` (the last value committed by interpolation) as
the new fade's `start`, and reloads every float accumulator from
`current`, so the new fade's initial channel values equal the
pre-re-target `current` — not the previous fade's `start` and not its
old `target`. -/
theorem start_retargets_from_current (now : Int) (ps : FadeParams)
    (s : FadeSession) (hinit : s.initialized = true)
    (_hfade : s.state = .fading) :
    (fade_controller_start now (some ps) s).1.start = s.current ∧
    (fade_controller_start now (some ps) s).1.target = ps.target ∧
    ∀ p : LightParam,
      getF (fade_controller_start now (some ps) s).1.current_float p
        = Frac.ofInt (get_param s.current p) := by
  unfold fade_controller_start
  rw [hinit]
  by_cases hd : ps.duration_ms = 0 <;>
    simp [hd, getF_floatsOf]

/-- C5 witness: re-targeting the concrete mid-fade session `midFade`
(current = (10,20,30,40,50), old start all-zero, old target brightness
255) starts the new fade from (10,20,30,40,50). -/
theorem start_retargets_from_current_witness :
    (fade_controller_start 500000 (some ⟨⟨1, 2, 3, 4, 5⟩, 200⟩) midFade).1.start
        = midFade.current ∧
    (fade_controller_start 500000 (some ⟨⟨1, 2, 3, 4, 5⟩, 200⟩) midFade).1.target
        = ⟨1, 2, 3, 4, 5⟩ ∧
    ∀ p : LightParam,
      getF (fade_controller_start 500000 (some ⟨⟨1, 2, 3, 4, 5⟩, 200⟩) midFade).1.current_float p
        = Frac.ofInt (get_param midFade.current p) :=
  start_retargets_from_current 500000 ⟨⟨1, 2, 3, 4, 5⟩, 200⟩ midFade rfl rfl

/-- C6: `fade_controller_apply_immediate S` is literally
`fade_controller_start {target := S, duration := 0}` — same returned
error and same session — and on an initialized session it sets
`current := S` and enters `FADING` with a full transmission round
pending at cursor 0. -/
theorem apply_immediate_is_start_zero (now : Int) (st : LightingState)
    (s : FadeSession) :
    fade_controller_apply_immediate now (some st) s
        = fade_controller_start now (some ⟨st, 0⟩) s ∧
    (s.initialized = true →
      (fade_controller_apply_immediate now (some st) s).2 = .espOk ∧
      (fade_controller_apply_immediate now (some st) s).1.current = st ∧
      (fade_controller_apply_immediate now (some st) s).1.state = .fading ∧
      (fade_controller_apply_immediate now (some st) s).1.tx_pending = true ∧
      (fade_controller_apply_immediate now (some st) s).1.next_param_index = 0) := by
  refine ⟨rfl, fun h => ?_⟩
  unfold fade_controller_apply_immediate fade_controller_start
  rw [h]
  simp

/-- C6 witness: immediate apply of (1,2,3,4,5) on the freshly
initialized session. -/
theorem apply_immediate_is_start_zero_witness :
    fade_controller_apply_immediate 42 (some ⟨1, 2, 3, 4, 5⟩) initSession
        = fade_controller_start 42 (some ⟨⟨1, 2, 3, 4, 5⟩, 0⟩) initSession ∧
    (fade_controller_apply_immediate 42 (some ⟨1, 2, 3, 4, 5⟩) initSession).1.current
        = ⟨1, 2, 3, 4, 5⟩ :=
  ⟨(apply_immediate_is_start_zero 42 ⟨1, 2, 3, 4, 5⟩ initSession).1,
   ((apply_immediate_is_start_zero 42 ⟨1, 2, 3, 4, 5⟩ initSession).2 rfl).2.1⟩

/-- C7 counterexample: `fade_controller_abort` does *not* clear the round
cursor.  On an initialized fading session whose round was interrupted at
channel index 2, abort forces IDLE and clears `tx_pending` but leaves
`next_param_index = 2`, contradicting the claim that both the pending
flag and the round cursor are cleared. -/
theorem abort_leaves_cursor_cex :
    (fade_controller_abort midFade).next_param_index = 2 ∧
    (fade_controller_abort midFade).state = .idle ∧
    (fade_controller_abort midFade).tx_pending = false ∧
    (2 : Nat) ≠ 0 := by decide

/-- C7 (amended): `abort` on an initialized session forces `IDLE` and
clears the pending-transmission flag; every other field — `current`
(whatever interpolation last committed: no rollback to `start`, no
fast-forward to `target`), and also the round cursor, which is only
reset by the next `start` — is left unchanged. -/
theorem abort_forces_idle (s : FadeSession) (h : s.initialized = true) :
    fade_controller_abort s = { s with state := .idle, tx_pending := false } := by
  unfold fade_controller_abort
  rw [h]
  simp

/-- C7 witness: aborting the concrete mid-fade session. -/
theorem abort_forces_idle_witness :
    fade_controller_abort midFade
      = { midFade with state := .idle, tx_pending := false } :=
  abort_forces_idle midFade rfl

/-- C9 counterexample: on the freshly initialized session (state `IDLE`,
duration 0) `getProgress` reports percent 0, while the claim's formula
`complete ? 100 : (totalMs > 0 ? elapsedMs*100/totalMs : 100)` yields
100 — the code returns percent 0 (and elapsed 0) in `IDLE`
unconditionally. -/
theorem get_progress_percent_cex :
    (fade_controller_get_progress 0 initSession).1.progress_percent = 0 ∧
    percentClaim (fade_controller_get_progress 0 initSession).1.state
        (fade_controller_get_progress 0 initSession).1.elapsed_ms
        (fade_controller_get_progress 0 initSession).1.total_ms = 100 ∧
    (0 : Nat) ≠ 100 := by decide

/-- C9 (amended): for an initialized session, `getProgress` returns
`totalMs = duration`, `elapsedMs` clamped to the duration (the wall
elapsed time for `FADING`, exactly the duration for `COMPLETE`, and 0
for `IDLE`), and percent = 100 for `COMPLETE`,
`(elapsedMs*100 mod 2^32) / totalMs` (100 if `totalMs = 0`) for
`FADING`, and 0 — not the claim's 100-when-duration-0 — for `IDLE`;
the function's return value and the reported state are the session
state and the reported `current` is the session `current`. -/
theorem get_progress_amended (now : Int) (s : FadeSession)
    (h : s.initialized = true) :
    (fade_controller_get_progress now s).2 = s.state ∧
    (fade_controller_get_progress now s).1.state = s.state ∧
    (fade_controller_get_progress now s).1.current = s.current ∧
    (fade_controller_get_progress now s).1.total_ms = s.duration_ms ∧
    (fade_controller_get_progress now s).1.elapsed_ms ≤ s.duration_ms ∧
    (s.state = .complete →
      (fade_controller_get_progress now s).1.elapsed_ms = s.duration_ms ∧
      (fade_controller_get_progress now s).1.progress_percent = 100) ∧
    (s.state = .idle →
      (fade_controller_get_progress now s).1.elapsed_ms = 0 ∧
      (fade_controller_get_progress now s).1.progress_percent = 0) ∧
    (s.state = .fading →
      (fade_controller_get_progress now s).1.elapsed_ms
        = min ((((now - s.fade_start_us).tdiv 1000) % 4294967296).toNat)
            s.duration_ms ∧
      (fade_controller_get_progress now s).1.progress_percent
        = if 0 < s.duration_ms then
            ((fade_controller_get_progress now s).1.elapsed_ms * 100) % 4294967296
              / s.duration_ms % 256
          else 100) := by
  unfold fade_controller_get_progress
  rw [h]
  cases hs : s.state <;> simp [hs, min_le_right]

/-- C9 witness: the fading session `progressWit` (duration 1000 ms,
started at 0) polled at 250000 µs. -/
theorem get_progress_amended_witness :
    (fade_controller_get_progress 250000 progressWit).1.elapsed_ms = 250 ∧
    (fade_controller_get_progress 250000 progressWit).1.progress_percent = 25 := by
  have h := get_progress_amended 250000 progressWit rfl
  have he := (h.2.2.2.2.2.2.2 rfl).1
  have hp := (h.2.2.2.2.2.2.2 rfl).2
  refine ⟨?_, ?_⟩
  · rw [he]; decide
  · rw [hp]
    have : (fade_controller_get_progress 250000 progressWit).1.elapsed_ms = 250 := by
      rw [he]; decide
    rw [this]
    decide

/-- C10: `fade_controller_init` is idempotent at the public interface:
on an already-initialized session it returns `ESP_OK` and leaves the
whole session record unchanged, while the first call produces the
zeroed session with state `IDLE` (and `initialized = true`). -/
theorem init_idempotent (s : FadeSession) :
    (s.initialized = true → fade_controller_init s = (s, .espOk)) ∧
    (s.initialized = false → fade_controller_init s = (initSession, .espOk)) := by
  constructor <;> intro h <;> simp [fade_controller_init, h]

/-- C10 witness: a second init on the initialized session is the
identity; a first init on an uninitialized session with scribbled
fields produces the zeroed idle session. -/
theorem init_idempotent_witness :
    fade_controller_init initSession = (initSession, .espOk) ∧
    fade_controller_init uninitSession = (initSession, .espOk) :=
  ⟨(init_idempotent initSession).1 rfl, (init_idempotent uninitSession).2 rfl⟩

/-! ### Endpoint delivery and rounding scenarios -/

/-- C1: evaluation of the code at the failing input.  Fade of brightness
0 → 255 over 5 ms, started at t = 1000000 µs on the freshly initialized
session; the tick at t = 1000000 µs transmits a full round of the still
all-zero values; the tick at t = 1006000 µs snaps `current` to the
target (progress ≥ 1) but its transmission is blocked by the 10 ms rate
limiter, and the controller nevertheless enters `COMPLETE`.  The state
becomes `COMPLETE` with the last transmitted brightness value 0, the
target value 255 never having been put on the bus — the logical
`current` equals `target`, but no transmission round of those values
ever ran. -/
theorem complete_entered_without_final_round :
    buggyTick2.1.state = .complete ∧
    buggyTick2.2.1 = [] ∧
    lastSentOn (buggyTick1.2.1 ++ buggyTick2.2.1) .brightness = some 0 ∧
    buggyTick2.1.target.brightness = 255 ∧
    buggyTick2.1.current.brightness = 255 ∧
    buggyTick1.1.tx_pending = false ∧
    buggyTick1.1.next_param_index = 0 := by decide

/-- C8: committed channel values are `roundf` = round-to-nearest with
ties away from zero (for the nonnegative half-integer ties `n + 1/2`
arising here, the result is `n + 1`), taken modulo the `uint8_t` range;
and in the concrete scenario `start(target = brightness 255, duration =
1000 ms)` from all-zero, the tick at elapsed 500 ms commits brightness
127.5 → 128 (which is one of the two values 127/128 the claim allows),
and the tick at elapsed 1000 ms commits brightness 255 and reaches
`COMPLETE`. -/
theorem round_half_away_scenario :
    (∀ n : Nat, n ≤ 254 → u8round ⟨2 * (n : Int) + 1, 2⟩ = n + 1) ∧
    (fadeTickHalf.1.current.brightness = 127 ∨
      fadeTickHalf.1.current.brightness = 128) ∧
    fadeTickHalf.1.current.brightness = 128 ∧
    fadeTickEnd.1.current.brightness = 255 ∧
    fadeTickEnd.1.state = .complete := by
  refine ⟨?_, by decide, by decide, by decide, by decide⟩
  intro n h
  show (((2 * (n : Int) + 1) * 2 + 2).fdiv ((2 : Int) * 2)).toNat % 256 = n + 1
  rw [show ((2 * (n : Int) + 1) * 2 + 2) = 4 * ((n : Int) + 1) by ring,
      show ((2 : Int) * 2) = 4 by norm_num,
      Int.mul_fdiv_cancel_left _ (by norm_num)]
  have ht : ((n : Int) + 1).toNat = n + 1 := by omega
  rw [ht]
  exact Nat.mod_eq_of_lt (by omega)

/-- C8 witness: the tie 127.5 commits as 128 under the
round-half-away-from-zero policy. -/
theorem round_half_away_scenario_witness :
    u8round ⟨2 * (127 : Int) + 1, 2⟩ = 127 + 1 :=
  round_half_away_scenario.1 127 (by decide)

/-! ### Rate limiting -/

theorem txPhase_lastTx_or (now now2 : Int) (sink : LightParam → Nat → EspErr)
    (s1 : FadeSession) (doTx : Bool) :
    (txPhase now now2 sink s1 doTx).1.last_tx_us = s1.last_tx_us ∨
    (txPhase now now2 sink s1 doTx).1.last_tx_us = now2 := by
  simp only [txPhase]
  split
  · split
    · split
      · dsimp only
        split
        · exact Or.inr rfl
        · exact Or.inl rfl
      · dsimp only
        split
        · exact Or.inr rfl
        · exact Or.inl rfl
    · exact Or.inl rfl
  · exact Or.inl rfl

theorem txPhase_sends_ne (now now2 : Int) (sink : LightParam → Nat → EspErr)
    (s1 : FadeSession) (doTx : Bool)
    (h : (txPhase now now2 sink s1 doTx).2 ≠ []) :
    10000 ≤ now - s1.last_tx_us ∧
    (txPhase now now2 sink s1 doTx).1.last_tx_us = now2 := by
  revert h
  simp only [txPhase]
  split
  · split
    · intro h
      have hne : ((txBurst sink s1.current s1.next_param_index).2.isEmpty) = false := by
        cases hb : (txBurst sink s1.current s1.next_param_index).2 with
        | nil =>
          exfalso
          apply h
          split <;> simp [hb]
        | cons a l => simp [hb]
      refine ⟨by assumption, ?_⟩
      split <;> simp [hne]
    · intro h; exact absurd rfl h
  · intro h; exact absurd rfl h

theorem completePhase_lastTx (p : Frac) (s : FadeSession) :
    (completePhase p s).last_tx_us = s.last_tx_us := by
  unfold completePhase
  split
  · split <;> rfl
  · rfl

theorem tickFading_lastTx_or (now now2 : Int) (sink : LightParam → Nat → EspErr)
    (s : FadeSession) :
    (tickFading now now2 sink s).1.last_tx_us = s.last_tx_us ∨
    (tickFading now now2 sink s).1.last_tx_us = now2 := by
  simp only [tickFading]
  rw [completePhase_lastTx]
  exact txPhase_lastTx_or now now2 sink _ _

theorem tickFading_sends_ne (now now2 : Int) (sink : LightParam → Nat → EspErr)
    (s : FadeSession) (h : (tickFading now now2 sink s).2 ≠ []) :
    10000 ≤ now - s.last_tx_us ∧
    (tickFading now now2 sink s).1.last_tx_us = now2 := by
  simp only [tickFading] at h ⊢
  rw [completePhase_lastTx]
  exact txPhase_sends_ne now now2 sink _ _ h

theorem tick_lastTx_or (now now2 : Int) (sink : LightParam → Nat → EspErr)
    (s : FadeSession) :
    (fade_controller_tick now now2 sink s).1.last_tx_us = s.last_tx_us ∨
    (fade_controller_tick now now2 sink s).1.last_tx_us = now2 := by
  unfold fade_controller_tick
  split
  · exact Or.inl rfl
  · split
    · exact Or.inl rfl
    · split
      · exact Or.inl rfl
      · exact tickFading_lastTx_or now now2 sink s

theorem tick_sends_ne (now now2 : Int) (sink : LightParam → Nat → EspErr)
    (s : FadeSession)
    (h : (fade_controller_tick now now2 sink s).2.1 ≠ []) :
    10000 ≤ now - s.last_tx_us ∧
    (fade_controller_tick now now2 sink s).1.last_tx_us = now2 := by
  revert h
  unfold fade_controller_tick
  split
  · intro h; exact absurd rfl h
  · split
    · intro h; exact absurd rfl h
    · split
      · intro h; exact absurd rfl h
      · intro h; exact tickFading_sends_ne now now2 sink s h

theorem tickChain_append_left :
    ∀ (xs ys : List TickIn) (b : Int), TickChain b (xs ++ ys) → TickChain b xs := by
  intro xs
  induction xs with
  | nil => intro ys b _; trivial
  | cons x xs ih =>
    intro ys b h
    exact ⟨h.1, h.2.1, ih ys x.now2 h.2.2⟩

theorem runTicks_lastTx_ge :
    ∀ (ts : List TickIn) (s : FadeSession) (B b : Int),
      TickChain b ts → B ≤ b → B ≤ s.last_tx_us →
      B ≤ (runTicks s ts).1.last_tx_us := by
  intro ts
  induction ts with
  | nil => intro s B b _ _ h; simpa [runTicks] using h
  | cons t ts ih =>
    intro s B b hch hBb hBs
    obtain ⟨h1, h2, h3⟩ := hch
    simp only [runTicks]
    refine ih _ B t.now2 h3 (by omega) ?_
    rcases tick_lastTx_or t.now t.now2 t.sink s with h | h
    · rw [h]; exact hBs
    · rw [h]; omega

/-- C3: under arbitrarily fast ticking with monotone timer readings, no
two transmission rounds begin less than the minimum interval
`MIN_TX_INTERVAL_MS = 10 ms` apart, measured from round-start to
round-start: if a tick starts a round (transmit cursor 0 on entry) and
actually transmits, and a later tick — after any number of intermediate
ticks — again starts a round and transmits, then the timer readings at
the beginnings of those two ticks are at least 10000 µs apart.  (A
"round" here is identified by the events it puts on the bus; a pass in
which the sink rejects every channel transmits nothing.)  The interval
is measured from round start, not from round end: the bound relates the
entry timestamps of the two ticks. -/
theorem tx_rounds_min_interval
    (s0 : FadeSession) (t1 : TickIn) (mid : List TickIn) (t2 : TickIn)
    (hchain : TickChain t1.now (t1 :: (mid ++ [t2])))
    (_hcursor1 : s0.next_param_index = 0)
    (h1 : (fade_controller_tick t1.now t1.now2 t1.sink s0).2.1 ≠ [])
    (_hcursor2 :
      (runTicks (fade_controller_tick t1.now t1.now2 t1.sink s0).1 mid).1.next_param_index
        = 0)
    (h2 : (fade_controller_tick t2.now t2.now2 t2.sink
            (runTicks (fade_controller_tick t1.now t1.now2 t1.sink s0).1 mid).1).2.1
          ≠ []) :
    t1.now + 10000 ≤ t2.now := by
  obtain ⟨-, hn12, hch⟩ := hchain
  have hA := tick_sends_ne t1.now t1.now2 t1.sink s0 h1
  have hch1 : TickChain t1.now2 mid := tickChain_append_left mid [t2] t1.now2 hch
  have hB : t1.now2 ≤
      (runTicks (fade_controller_tick t1.now t1.now2 t1.sink s0).1 mid).1.last_tx_us :=
    runTicks_lastTx_ge mid _ t1.now2 t1.now2 hch1 le_rfl (le_of_eq hA.2.symm)
  have hC := tick_sends_ne t2.now t2.now2 t2.sink
      (runTicks (fade_controller_tick t1.now t1.now2 t1.sink s0).1 mid).1 h2
  omega

/-- C3 witness: a fading session whose first transmitting tick is at
20000 µs; a second transmitting tick at 30100 µs (cursor 0 both times)
is indeed at least 10000 µs after the first. -/
theorem tx_rounds_min_interval_witness :
    (fade_controller_tick rateT1.now rateT1.now2 rateT1.sink rateS0).2.1 ≠ [] ∧
    rateT1.now + 10000 ≤ rateT2.now :=
  ⟨by decide,
   tx_rounds_min_interval rateS0 rateT1 [] rateT2
     ⟨le_refl _, by decide, by decide, by decide, trivial⟩
     rfl (by decide) rfl (by decide)⟩

/-- C4 witness: with the sink not ready on the 3rd channel (green), a
burst entered at cursor 2 halts immediately with nothing sent and the
cursor preserved. -/
theorem transient_halts_other_failures_skip_witness :
    txBurst haltSink ⟨10, 20, 30, 40, 50⟩ 2 = (2, []) :=
  (transient_halts_other_failures_skip haltSink ⟨10, 20, 30, 40, 50⟩ 2
    (by decide)).1 rfl
